import Mathlib

/-!
Shallow embedding of the consensus threat-scoring engine of the
ZeroTrust-DAO-Security-Oracle repository.

Numeric JS values are modelled as exact rationals (`ℚ`); epoch timestamps as
integers (`ℤ`).  `Math.round x` in JS is `⌊x + 1/2⌋`; `x || d` on a numeric
field is `d` when `x = 0` (JS falsiness) and `x` otherwise.  `getHours` is
modelled as the UTC hour of the epoch-millisecond timestamp.
-/

namespace ZeroTrust

/-- JS `x || d` for numeric rational fields (`0` is falsy). -/
def jsOrQ (x d : ℚ) : ℚ := if x = 0 then d else x

/-- JS `t || d` for integer timestamps (`0` is falsy). -/
def jsOrI (x d : ℤ) : ℤ := if x = 0 then d else x

/-- JS `Math.round`: round half toward positive infinity. -/
def jsRound (q : ℚ) : ℤ := ⌊q + 1/2⌋

/-- `new Date(t).getHours()` for an epoch-millisecond timestamp, UTC. -/
def hourOf (t : ℤ) : ℤ := (t / 3600000) % 24

/-- The caller-supplied transaction description (`threatData` in the servers).
All fields present; JS-absent fields are handled at call sites via `jsOrQ`/`jsOrI`. -/
structure TransactionEvent where
  amount : ℚ
  executionTime : ℚ
  contractInteractions : ℚ
  timestamp : ℤ
  senderScore : ℚ
  hasPersonalData : Bool
  jurisdiction : String
  consentGiven : Bool
  treasurySize : ℚ
deriving DecidableEq, Repr

/-- The four verdicts produced by the system. -/
inductive Action
  | block
  | alert
  | monitor
  | allow
deriving DecidableEq, Repr

/-- `WorkingAutonomousGuardian.personality` (real-autonomous-ai). -/
structure Personality where
  riskTolerance : ℚ
  learningRate : ℚ
  confidenceThreshold : ℚ
deriving DecidableEq, Repr

/-- The constructor values `{riskTolerance: 0.3, learningRate: 0.01, confidenceThreshold: 0.7}`. -/
def defaultPersonality : Personality :=
  { riskTolerance := 0.3, learningRate := 0.01, confidenceThreshold := 0.7 }

/-- The record pushed onto `this.realDecisions`:
`{id: Date.now(), prediction, decision, confidence, timestamp: Date.now()}`
(the `input` feature snapshot and reasoning string are omitted: no claim reads them). -/
structure DecisionRecord where
  id : ℤ
  prediction : ℚ
  action : Action
  confidence : ℚ
  timestamp : ℤ
deriving DecidableEq, Repr

/-- An element of `this.memoryDB`: `{event, decision, outcome: null}`;
`outcome` stays `none` until ground truth arrives. -/
structure MemoryEntry where
  event : TransactionEvent
  decision : DecisionRecord
  outcome : Option Bool
deriving DecidableEq, Repr

/-! ### WorkingAutonomousGuardian (file real-autonomous-ai.js) -/

/-- `normalizeAmount(amount) = Math.min(amount / 1000000, 1)`. -/
def normalizeAmount (amount : ℚ) : ℚ := min (amount / 1000000) 1

/-- `normalizeTime(timestamp) = hour / 24`. -/
def normalizeTime (t : ℤ) : ℚ := (hourOf t : ℚ) / 24

/-- The weighted threat calculation of `makeAutonomousDecision`:
`amount*0.4 + speed*0.3 + contracts*0.2 + time*0.1` over the `threatFactors`
(on numeric fields `x || 0` is the identity and is inlined). -/
def threatProbability (ev : TransactionEvent) (now : ℤ) : ℚ :=
  normalizeAmount ev.amount * 0.4
  + (if ev.executionTime < 60 then (0.9 : ℚ) else 0.1) * 0.3
  + min (ev.contractInteractions / 10) 1 * 0.2
  + normalizeTime (jsOrI ev.timestamp now) * 0.1

/-- Dot product of the similarity feature triples
`[amount, contractInteractions, executionTime]` of `calculateSimilarity`. -/
def simDot (e1 e2 : TransactionEvent) : ℚ :=
  e1.amount * e2.amount + e1.contractInteractions * e2.contractInteractions
  + e1.executionTime * e2.executionTime

/-- Squared Euclidean norm of the similarity feature triple (`norm1`/`norm2`
before the square root in `calculateSimilarity`). -/
def simNormSq (e : TransactionEvent) : ℚ :=
  e.amount ^ 2 + e.contractInteractions ^ 2 + e.executionTime ^ 2

/-- Decides `calculateSimilarity(e1, e2) > 0.8`, the only comparison the code
makes on the similarity value.  The code computes
`dot / (sqrt norm1 * sqrt norm2)` (and `0` when either norm is `0`); for
positive norms that quotient exceeds `4/5` iff `dot > 0` and
`25 * dot^2 > 16 * norm1 * norm2`, which avoids irrational square roots. -/
def simAbove08 (e1 e2 : TransactionEvent) : Bool :=
  if simNormSq e1 = 0 ∨ simNormSq e2 = 0 then false
  else decide (0 < simDot e1 e2 ∧
    16 * simNormSq e1 * simNormSq e2 < 25 * simDot e1 e2 ^ 2)

/-- `applyPersonality(threatScore, eventData)` (the `threatScore` argument is
unused by the body and omitted): sum of the amount bonus, the vulnerable-hours
bonus, and the known-pattern dampening. -/
def applyPersonality (pers : Personality) (ev : TransactionEvent)
    (memoryDB : List MemoryEntry) (now : ℤ) : ℚ :=
  (if ev.amount > 500000 then 0.1 * pers.riskTolerance else 0)
  + (if 2 ≤ hourOf (jsOrI ev.timestamp now) ∧ hourOf (jsOrI ev.timestamp now) ≤ 6
      then (0.15 : ℚ) else 0)
  + (if (memoryDB.any fun m => simAbove08 m.event ev) ∧ 10 < memoryDB.length
      then (-0.05 : ℚ) else 0)

/-- `finalThreatScore = Math.min(1, threatProbability + personalityAdjustment)`. -/
def finalThreatScore (pers : Personality) (ev : TransactionEvent)
    (memoryDB : List MemoryEntry) (now : ℤ) : ℚ :=
  min 1 (threatProbability ev now + applyPersonality pers ev memoryDB now)

/-- Verdict of `makeDecision(threatScore)` (action and confidence; the
reasoning strings are fixed per bucket and omitted). -/
structure Verdict where
  action : Action
  confidence : ℚ
deriving DecidableEq, Repr

/-- `makeDecision`: `>0.8 → block`, `>0.6 → alert`, `>0.3 → monitor`, else
`allow` with confidence `1 - threatScore`. -/
def makeDecision (threatScore : ℚ) : Verdict :=
  if threatScore > 0.8 then { action := .block, confidence := threatScore }
  else if threatScore > 0.6 then { action := .alert, confidence := threatScore }
  else if threatScore > 0.3 then { action := .monitor, confidence := threatScore }
  else { action := .allow, confidence := 1 - threatScore }

/-- The JSON object `makeAutonomousDecision` returns to its caller. -/
structure GuardianResult where
  threat : Bool
  action : Action
  confidence : ℚ
  threatScore : ℤ
  personalityInfluence : ℚ
deriving DecidableEq, Repr

/-- Full state-passing result of one `makeAutonomousDecision` call: the JSON
result, the `decisionRecord`, and the updated `realDecisions` and `memoryDB`. -/
structure GuardianOutcome where
  result : GuardianResult
  record : DecisionRecord
  realDecisions : List DecisionRecord
  memoryDB : List MemoryEntry
deriving DecidableEq, Repr

/-- `WorkingAutonomousGuardian.makeAutonomousDecision(eventData)` at wall-clock
millisecond `now` (`Date.now()`), acting on guardian state
(`personality`, `memoryDB`, `realDecisions`). -/
def makeAutonomousDecision (pers : Personality) (memoryDB : List MemoryEntry)
    (realDecisions : List DecisionRecord) (ev : TransactionEvent) (now : ℤ) :
    GuardianOutcome :=
  let base := threatProbability ev now
  let adj := applyPersonality pers ev memoryDB now
  let final := finalThreatScore pers ev memoryDB now
  let v := makeDecision final
  let record : DecisionRecord :=
    { id := now, prediction := base, action := v.action,
      confidence := v.confidence, timestamp := now }
  { result :=
      { threat := decide (v.action = .block ∨ v.action = .alert),
        action := v.action, confidence := v.confidence,
        threatScore := jsRound (final * 100), personalityInfluence := adj },
    record := record,
    realDecisions := realDecisions ++ [record],
    memoryDB := memoryDB ++ [{ event := ev, decision := record, outcome := none }] }

/-- The per-guardian accuracy counters `this.accuracy = {correct: 0, total: 0}`. -/
structure Accuracy where
  correct : ℕ
  total : ℕ
deriving DecidableEq, Repr

/-- The ground-truth label fed to `learnFromOutcome`. -/
inductive Outcome
  | threat
  | safe
deriving DecidableEq, Repr

/-- `evaluateDecision(decision, actualOutcome)`. -/
def evaluateDecision (action : Action) (actual : Outcome) : Bool :=
  decide ((action = .block ∧ actual = .threat) ∨ (action = .alert ∧ actual = .threat)
    ∨ (action = .allow ∧ actual = .safe) ∨ (action = .monitor ∧ actual = .safe))

/-- `WorkingAutonomousGuardian.learnFromOutcome(decisionId, actualOutcome)`:
returns the boolean result and the updated accuracy counters.  An unknown id
returns `false` before the counters are touched. -/
def learnFromOutcome (realDecisions : List DecisionRecord) (acc : Accuracy)
    (decisionId : ℤ) (actual : Outcome) : Bool × Accuracy :=
  match realDecisions.find? (fun d => d.id == decisionId) with
  | none => (false, acc)
  | some d =>
      (true,
        { total := acc.total + 1,
          correct := acc.correct + (if evaluateDecision d.action actual then 1 else 0) })

/-! ### WorkingAIAgents (file real-ai-agents.js) -/

/-- `WorkingAIAgents.calculateRiskScore(threatData)`.  The time-based `+10`
reads the CURRENT wall-clock hour (`new Date().getHours()`), not the event
timestamp, so the current hour is an explicit argument.  The speed clause is
`threatData.executionTime && threatData.executionTime < 60` (a zero execution
time is falsy and earns no bonus). -/
def calculateRiskScore (ev : TransactionEvent) (nowHour : ℤ) : ℚ :=
  min 100
    ((if ev.amount > 1000000 then (40 : ℚ) else if ev.amount > 100000 then 20 else 0)
    + (if ev.executionTime ≠ 0 ∧ ev.executionTime < 60 then 30 else 0)
    + (if ev.contractInteractions > 5 then 20 else 0)
    + (if 2 ≤ nowHour ∧ nowHour ≤ 6 then 10 else 0))

/-- `WorkingAIAgents.checkPrivacyCompliance(threatData)`. -/
def checkPrivacyCompliance (ev : TransactionEvent) : ℚ :=
  min 100
    ((if ev.hasPersonalData then (30 : ℚ) else 0)
    + (if ev.jurisdiction = "EU" then 20 else 0)
    + (if ev.consentGiven then 0 else 25))

/-- `WorkingAIAgents.assessTreasuryImpact(threatData)`:
`min(100, amount / (treasurySize || 1000000) * 100)`. -/
def assessTreasuryImpact (ev : TransactionEvent) : ℚ :=
  min 100 (ev.amount / jsOrQ ev.treasurySize 1000000 * 100)

/-- The JSON object `analyzeWithRealAgents` returns (the fields the claims
read: the rounded `riskScore`, the raw `consensus`, and the per-agent
breakdown reported under `agentResults`). -/
structure AgentResult where
  riskScore : ℤ
  consensus : ℚ
  riskRaw : ℚ
  privacyScore : ℚ
  treasuryImpact : ℚ
deriving DecidableEq, Repr

/-- `WorkingAIAgents.analyzeWithRealAgents(threatData)`:
`consensusScore = riskScore*0.5 + privacyScore*0.2 + treasuryImpact*0.3`,
returned as `riskScore: Math.round(consensusScore)` and `consensus`. -/
def analyzeWithRealAgents (ev : TransactionEvent) (nowHour : ℤ) : AgentResult :=
  let r := calculateRiskScore ev nowHour
  let p := checkPrivacyCompliance ev
  let t := assessTreasuryImpact ev
  let c := r * 0.5 + p * 0.2 + t * 0.3
  { riskScore := jsRound c, consensus := c, riskRaw := r,
    privacyScore := p, treasuryImpact := t }

/-! ### WorkingZKAnalyzer (file real-zk-implementation.js) -/

/-- `WorkingZKAnalyzer.analyzeTimePattern(timestamp)`. -/
def analyzeTimePattern (t : ℤ) : ℚ :=
  if 2 ≤ hourOf t ∧ hourOf t ≤ 6 then 70
  else if 22 ≤ hourOf t ∨ hourOf t ≤ 2 then 40
  else 15

/-- The risk part of `WorkingZKAnalyzer.generateProof(transactionData)`:
`riskScore = min(100, (amountFactor + timeFactor + reputationFactor) / 3)`
(the SHA-256 `proofHash` is outside the numeric model). -/
def zkRiskScore (ev : TransactionEvent) (now : ℤ) : ℚ :=
  let amountFactor : ℚ := if ev.amount > 100000 then 80 else 20
  let timeFactor := analyzeTimePattern (jsOrI ev.timestamp now)
  let reputationFactor : ℚ := if jsOrQ ev.senderScore 50 < 30 then 90 else 10
  min 100 ((amountFactor + timeFactor + reputationFactor) / 3)

/-! ### UltimateZeroTrustOracle.makeUltimateDecision
(file backend/ultimate-advanced-server.js) -/

/-- The object `makeUltimateDecision` returns: the raw mean, its rounded form,
the chosen action, the fixed confidence `0.9`, and the `individualScores`. -/
structure UltimateDecision where
  ultimateScoreQ : ℚ
  ultimateScore : ℤ
  action : Action
  confidence : ℚ
  scoreAI : ℚ
  scoreZK : ℚ
  scoreAgents : ℚ
  scoreGuardian : ℚ
deriving DecidableEq, Repr

/-- `makeUltimateDecision([aiResult, zkResult, agentResult, guardianResult])`.
Each argument stands for the numeric score field the code reads
(`aiResult?.threatScore`, `zkResult?.riskScore`, `agentResult?.riskScore`,
`guardianResult?.threatScore`); a missing or failed result is `none`, and
`?.score || 0` maps it to `0`.  `ultimateScore` is the equal-weight mean of
the four extracted values; `action` defaults to `monitor`, with `block` above
`80` and `alert` above `60`. -/
def makeUltimateDecision (aiScore zkScore agentScore guardianScore : Option ℚ) :
    UltimateDecision :=
  let a := aiScore.getD 0
  let z := zkScore.getD 0
  let m := agentScore.getD 0
  let g := guardianScore.getD 0
  let s := (a + z + m + g) / 4
  let act : Action := if s > 80 then .block else if s > 60 then .alert else .monitor
  { ultimateScoreQ := s, ultimateScore := jsRound s, action := act,
    confidence := 0.9, scoreAI := a, scoreZK := z, scoreAgents := m,
    scoreGuardian := g }

/-! ### WorkingSecurityOracle analyze-threat pipeline
(file backend/working-server.js) -/

/-- The response of the `/api/analyze-threat` route: the combined rounded
`riskScore` plus the three sub-results whose score fields enter the mean. -/
structure AnalysisOutput where
  riskScore : ℤ
  threatDetected : Bool
  zk : ℚ
  agent : AgentResult
  guardian : GuardianResult
deriving DecidableEq, Repr

/-- The scoring path of `WorkingSecurityOracle`'s analyze-threat route:
`finalThreatScore = (zkResult.riskScore + agentResult.riskScore +
guardianResult.threatScore) / 3` over the rounded component scores, with the
guardian run against the current memory.  `now` is `Date.now()` and `nowHour`
the current wall-clock hour read by the agents risk scorer. -/
def analyzeThreat (pers : Personality) (memoryDB : List MemoryEntry)
    (realDecisions : List DecisionRecord) (ev : TransactionEvent)
    (now nowHour : ℤ) : AnalysisOutput :=
  let zk := zkRiskScore ev now
  let agent := analyzeWithRealAgents ev nowHour
  let guardian := makeAutonomousDecision pers memoryDB realDecisions ev now
  let final := ((jsRound zk : ℚ) + (agent.riskScore : ℚ) +
    (guardian.result.threatScore : ℚ)) / 3
  { riskScore := jsRound final, threatDetected := decide (final > 70),
    zk := zk, agent := agent, guardian := guardian.result }

/-! ### ElizaOSFramework.addLearning (DEGA core-tech server) -/

/-- `Map.set(k, v)` on an insertion-ordered association list: an existing key
is updated in place (its position kept), a new key is appended. -/
def mapSet (m : List (String × ℚ)) (k : String) (v : ℚ) : List (String × ℚ) :=
  if m.any fun p => p.1 == k then
    m.map fun p => if p.1 == k then (k, v) else p
  else m ++ [(k, v)]

/-- `Map.delete(oldestKey)` where `oldestKey = map.keys().next().value`:
removes the entry of the first insertion-order key. -/
def mapDeleteOldest (m : List (String × ℚ)) : List (String × ℚ) :=
  match m with
  | [] => []
  | p :: _ => m.eraseP fun q => q.1 == p.1

/-- `ElizaOSFramework.addLearning(event, outcome)`: `memoryBank.set` followed
by oldest-key eviction whenever `memoryBank.size > 1000`. -/
def addLearning (m : List (String × ℚ)) (k : String) (v : ℚ) :
    List (String × ℚ) :=
  if 1000 < (mapSet m k v).length then mapDeleteOldest (mapSet m k v)
  else mapSet m k v

/-- Guardian memory after a sequence of `makeAutonomousDecision` calls (one per
listed event), all at wall-clock `now`, starting from memory `mem`:
each call pushes one `MemoryEntry` and nothing is ever evicted. -/
def guardianMemAfter (pers : Personality) (now : ℤ) :
    List TransactionEvent → List MemoryEntry → List MemoryEntry
  | [], mem => mem
  | e :: es, mem => guardianMemAfter pers now es (makeAutonomousDecision pers mem [] e now).memoryDB

/-! ### Helper lemmas -/

theorem hourOf_nonneg (t : ℤ) : 0 ≤ hourOf t :=
  Int.emod_nonneg _ (by norm_num)

theorem hourOf_lt (t : ℤ) : hourOf t < 24 :=
  Int.emod_lt_of_pos _ (by norm_num)

theorem jsRound_le_of_le {x y : ℚ} (h : x ≤ y) : jsRound x ≤ jsRound y :=
  Int.floor_le_floor (by linarith)

theorem jsRound_hundred : jsRound (100 : ℚ) = 100 := by
  norm_num [jsRound]

theorem jsRound_zero_le {x : ℚ} (h : 0 ≤ x) : 0 ≤ jsRound x := by
  have : (0 : ℤ) ≤ ⌊x + 1/2⌋ := Int.le_floor.mpr (by push_cast; linarith)
  simpa [jsRound] using this

theorem threatProbability_nonneg (ev : TransactionEvent) (now : ℤ)
    (ha : 0 ≤ ev.amount) (hc : 0 ≤ ev.contractInteractions) :
    0 ≤ threatProbability ev now := by
  have hA : 0 ≤ min (ev.amount / 1000000) 1 := le_min (by positivity) (by norm_num)
  have hC : 0 ≤ min (ev.contractInteractions / 10) 1 := le_min (by positivity) (by norm_num)
  have hHr : (0 : ℚ) ≤ (hourOf (jsOrI ev.timestamp now) : ℚ) := by
    exact_mod_cast hourOf_nonneg _
  have hT : 0 ≤ normalizeTime (jsOrI ev.timestamp now) := by
    unfold normalizeTime; positivity
  unfold threatProbability normalizeAmount
  split_ifs <;> nlinarith

theorem finalThreatScore_le_one (pers : Personality) (ev : TransactionEvent)
    (memoryDB : List MemoryEntry) (now : ℤ) :
    finalThreatScore pers ev memoryDB now ≤ 1 :=
  min_le_left _ _

theorem makeAutonomousDecision_threatScore (pers : Personality)
    (memoryDB : List MemoryEntry) (realDecisions : List DecisionRecord)
    (ev : TransactionEvent) (now : ℤ) :
    (makeAutonomousDecision pers memoryDB realDecisions ev now).result.threatScore
      = jsRound (finalThreatScore pers ev memoryDB now * 100) := rfl

theorem makeAutonomousDecision_memoryDB_eq (pers : Personality)
    (memoryDB : List MemoryEntry) (realDecisions : List DecisionRecord)
    (ev : TransactionEvent) (now : ℤ) :
    (makeAutonomousDecision pers memoryDB realDecisions ev now).memoryDB
      = memoryDB ++
        [{ event := ev,
           decision := (makeAutonomousDecision pers memoryDB realDecisions ev now).record,
           outcome := none }] := rfl

theorem guardianMemAfter_length (pers : Personality) (now : ℤ)
    (evs : List TransactionEvent) (mem : List MemoryEntry) :
    (guardianMemAfter pers now evs mem).length = mem.length + evs.length := by
  induction evs generalizing mem with
  | nil => simp [guardianMemAfter]
  | cons e es ih =>
      rw [guardianMemAfter, ih, makeAutonomousDecision_memoryDB_eq]
      simp
      omega

theorem calculateRiskScore_bounds (ev : TransactionEvent) (nowHour : ℤ) :
    0 ≤ calculateRiskScore ev nowHour ∧ calculateRiskScore ev nowHour ≤ 100 := by
  unfold calculateRiskScore
  refine ⟨le_min (by norm_num) ?_, min_le_left _ _⟩
  split_ifs <;> norm_num

theorem checkPrivacyCompliance_bounds (ev : TransactionEvent) :
    0 ≤ checkPrivacyCompliance ev ∧ checkPrivacyCompliance ev ≤ 100 := by
  unfold checkPrivacyCompliance
  refine ⟨le_min (by norm_num) ?_, min_le_left _ _⟩
  split_ifs <;> norm_num

theorem assessTreasuryImpact_bounds (ev : TransactionEvent)
    (ha : 0 ≤ ev.amount) (ht : 0 ≤ ev.treasurySize) :
    0 ≤ assessTreasuryImpact ev ∧ assessTreasuryImpact ev ≤ 100 := by
  unfold assessTreasuryImpact jsOrQ
  refine ⟨le_min (by norm_num) ?_, min_le_left _ _⟩
  split_ifs with h
  · positivity
  · have : 0 < ev.treasurySize := lt_of_le_of_ne ht (Ne.symm h)
    positivity

theorem mapSet_length_le (m : List (String × ℚ)) (k : String) (v : ℚ) :
    (mapSet m k v).length ≤ m.length + 1 := by
  unfold mapSet
  split_ifs <;> simp

theorem mapDeleteOldest_cons (p : String × ℚ) (rest : List (String × ℚ)) :
    mapDeleteOldest (p :: rest) = rest := by
  unfold mapDeleteOldest
  exact List.eraseP_cons_of_pos (by simp)

theorem addLearning_length_le (m : List (String × ℚ)) (k : String) (v : ℚ)
    (h : m.length ≤ 1000) : (addLearning m k v).length ≤ 1000 := by
  unfold addLearning
  have h1 := mapSet_length_le m k v
  split_ifs with h2
  · cases hm : mapSet m k v with
    | nil => rw [hm] at h2; simp at h2
    | cons p rest =>
        rw [hm] at h1 h2
        rw [mapDeleteOldest_cons]
        simp at h1 h2
        omega
  · omega

/-! ### Concrete fixtures used by witnesses and counterexamples -/

/-- A benign event: zero amount, slow execution, no contract interactions,
timestamp at UTC hour 0. -/
def ev0 : TransactionEvent :=
  { amount := 0, executionTime := 100, contractInteractions := 0,
    timestamp := 86400000, senderScore := 50, hasPersonalData := false,
    jurisdiction := "", consentGiven := true, treasurySize := 1000000 }

/-- A memory entry recording `ev0`. -/
def entry0 : MemoryEntry :=
  { event := ev0,
    decision := { id := 0, prediction := 0, action := .allow, confidence := 1,
                  timestamp := 0 },
    outcome := none }

/-- Exactly ten stored entries, each maximally similar to `ev0`. -/
def mem10 : List MemoryEntry := List.replicate 10 entry0

/-- Eleven stored entries, each maximally similar to `ev0`. -/
def mem11 : List MemoryEntry := List.replicate 11 entry0

/-- A high-risk event: 2M amount, 10s execution, 12 contract interactions,
UTC hour 3, EU jurisdiction, personal data without consent. -/
def ev2 : TransactionEvent :=
  { amount := 2000000, executionTime := 10, contractInteractions := 12,
    timestamp := 10800000, senderScore := 50, hasPersonalData := true,
    jurisdiction := "EU", consentGiven := false, treasurySize := 1000000 }

/-- A quiet event whose only possible risk contribution is the wall-clock
night-hours bonus of the agents risk scorer (timestamp at UTC hour 12). -/
def ev5 : TransactionEvent :=
  { amount := 0, executionTime := 600, contractInteractions := 0,
    timestamp := 43200000, senderScore := 95, hasPersonalData := false,
    jurisdiction := "", consentGiven := true, treasurySize := 1000000 }

/-- Modelled from the spec, not the code (the refinement comparator for the
aggregation): the equal-weight arithmetic mean of exactly the four scorer
outputs Risk, Privacy-Compliance, Treasury-Impact and Guardian, as the spec
defines the consensus score. -/
def specFourScorerMean (ev : TransactionEvent) (nowHour now : ℤ)
    (mem : List MemoryEntry) (pers : Personality) : ℚ :=
  (calculateRiskScore ev nowHour + checkPrivacyCompliance ev
   + assessTreasuryImpact ev
   + ((makeAutonomousDecision pers mem [] ev now).result.threatScore : ℚ)) / 4

/-- First of two guardian decisions falling in wall-clock millisecond 5. -/
def guardianRun1 : GuardianOutcome :=
  makeAutonomousDecision defaultPersonality [] [] ev0 5

/-- Second guardian decision in the same millisecond, on the updated state. -/
def guardianRun2 : GuardianOutcome :=
  makeAutonomousDecision defaultPersonality guardianRun1.memoryDB
    guardianRun1.realDecisions ev5 5

theorem makeAutonomousDecision_realDecisions_eq (pers : Personality)
    (memoryDB : List MemoryEntry) (realDecisions : List DecisionRecord)
    (ev : TransactionEvent) (now : ℤ) :
    (makeAutonomousDecision pers memoryDB realDecisions ev now).realDecisions
      = realDecisions ++
        [(makeAutonomousDecision pers memoryDB realDecisions ev now).record] := rfl

theorem guardianMemAfter_events (pers : Personality) (now : ℤ)
    (evs : List TransactionEvent) (mem : List MemoryEntry) :
    (guardianMemAfter pers now evs mem).map (fun m => m.event)
      = mem.map (fun m => m.event) ++ evs := by
  induction evs generalizing mem with
  | nil => simp [guardianMemAfter]
  | cons e es ih =>
      rw [guardianMemAfter, ih, makeAutonomousDecision_memoryDB_eq]
      simp

/-! ### Claim theorems -/

/-- Claim C1, counterexample: with all four subsystem scores present and equal
to `0`, the consensus score is `0 < 30`, yet `makeUltimateDecision` returns
`monitor`, not the `allow` the claim requires for scores below 30. -/
theorem C1_counterexample :
    (makeUltimateDecision (some 0) (some 0) (some 0) (some 0)).ultimateScoreQ < 30
    ∧ (makeUltimateDecision (some 0) (some 0) (some 0) (some 0)).action = Action.monitor
    ∧ Action.monitor ≠ Action.allow := by
  refine ⟨by norm_num [makeUltimateDecision], ?_, by decide⟩
  norm_num [makeUltimateDecision]

/-- Claim C1, amended: the action returned by `makeUltimateDecision` is
uniquely determined by the consensus score via `>80 → block`, `>60 → alert`,
and `monitor` for everything else — including all scores below 30; the
ultimate aggregator never returns `allow`. -/
theorem C1_thresholds_of_code (a z m g : Option ℚ) :
    (makeUltimateDecision a z m g).action
      = (if (makeUltimateDecision a z m g).ultimateScoreQ > 80 then Action.block
         else if (makeUltimateDecision a z m g).ultimateScoreQ > 60 then Action.alert
         else Action.monitor)
    ∧ (makeUltimateDecision a z m g).action ≠ Action.allow := by
  constructor
  · rfl
  · unfold makeUltimateDecision
    dsimp only
    split_ifs <;> decide

/-- Claim C2, counterexample: for the high-risk event `ev2` at wall-clock hour
3, the consensus the multi-agent analyzer hands its caller is `95`
(`0.5·100 + 0.2·75 + 0.3·100`), while the equal-weight arithmetic mean of the
four scorer outputs Risk, Privacy-Compliance, Treasury-Impact and Guardian is
`375/4 = 93.75`; the two differ. -/
theorem C2_counterexample :
    (analyzeWithRealAgents ev2 3).consensus = 95
    ∧ specFourScorerMean ev2 3 10800000 [] defaultPersonality = 375 / 4
    ∧ (analyzeWithRealAgents ev2 3).consensus
        ≠ specFourScorerMean ev2 3 10800000 [] defaultPersonality := by
  have h1 : (analyzeWithRealAgents ev2 3).consensus = 95 := by
    norm_num [analyzeWithRealAgents, calculateRiskScore, checkPrivacyCompliance,
      assessTreasuryImpact, jsOrQ, ev2]
  have h2 : specFourScorerMean ev2 3 10800000 [] defaultPersonality = 375 / 4 := by
    norm_num [specFourScorerMean, calculateRiskScore, checkPrivacyCompliance,
      assessTreasuryImpact, jsOrQ, makeAutonomousDecision, finalThreatScore,
      threatProbability, applyPersonality, normalizeAmount, normalizeTime,
      jsOrI, hourOf, ev2, defaultPersonality, jsRound, makeDecision]
  refine ⟨h1, h2, fun h => ?_⟩
  rw [h1, h2] at h
  norm_num at h

/-- Claim C2, amended: the consensus handed to the multi-agent caller is the
weighted mean `0.5·Risk + 0.2·PrivacyCompliance + 0.3·TreasuryImpact` of
exactly the three agent scorer outputs (the Guardian score does not enter),
and it lies in `[0, 100]` for events with non-negative amount and treasury
size. -/
theorem C2_weighted_consensus (ev : TransactionEvent) (nowHour : ℤ)
    (ha : 0 ≤ ev.amount) (ht : 0 ≤ ev.treasurySize) :
    (analyzeWithRealAgents ev nowHour).consensus
      = calculateRiskScore ev nowHour * 0.5 + checkPrivacyCompliance ev * 0.2
        + assessTreasuryImpact ev * 0.3
    ∧ 0 ≤ (analyzeWithRealAgents ev nowHour).consensus
    ∧ (analyzeWithRealAgents ev nowHour).consensus ≤ 100 := by
  obtain ⟨r0, r1⟩ := calculateRiskScore_bounds ev nowHour
  obtain ⟨p0, p1⟩ := checkPrivacyCompliance_bounds ev
  obtain ⟨t0, t1⟩ := assessTreasuryImpact_bounds ev ha ht
  refine ⟨rfl, ?_, ?_⟩
  · show 0 ≤ calculateRiskScore ev nowHour * 0.5 + checkPrivacyCompliance ev * 0.2
        + assessTreasuryImpact ev * 0.3
    nlinarith
  · show calculateRiskScore ev nowHour * 0.5 + checkPrivacyCompliance ev * 0.2
        + assessTreasuryImpact ev * 0.3 ≤ 100
    nlinarith

/-- Witness for C2: the amended statement instantiated at the benign event
`ev0` (non-negative amount and treasury size), wall-clock hour 12. -/
theorem C2_weighted_consensus_witness :
    0 ≤ ev0.amount ∧ 0 ≤ ev0.treasurySize
    ∧ (analyzeWithRealAgents ev0 12).consensus ≤ 100 :=
  ⟨by norm_num [ev0], by norm_num [ev0],
   (C2_weighted_consensus ev0 12 (by norm_num [ev0]) (by norm_num [ev0])).2.2⟩

/-- Claim C3, counterexample: for the benign event `ev0` against eleven
recognized similar memory entries, the dampening applies while the base
probability is only `0.03`, and the Guardian's final threat score is `-2` —
outside `[0, 100]`. -/
theorem C3_counterexample :
    (makeAutonomousDecision defaultPersonality mem11 [] ev0 86400000).result.threatScore = -2
    ∧ (makeAutonomousDecision defaultPersonality mem11 [] ev0 86400000).result.threatScore < 0 := by
  have h : (makeAutonomousDecision defaultPersonality mem11 [] ev0 86400000).result.threatScore = -2 := by
    norm_num [makeAutonomousDecision, finalThreatScore, threatProbability,
      applyPersonality, normalizeAmount, normalizeTime, jsOrI, hourOf, ev0,
      mem11, entry0, defaultPersonality, simAbove08, simNormSq, simDot,
      List.any, List.replicate, jsRound, makeDecision]
  exact ⟨h, by rw [h]; norm_num⟩

/-- Claim C3, amended: the Guardian's final threat score never exceeds 100,
and it is non-negative whenever the personality adjustment is non-negative
(for events with non-negative amount and interaction count); when the
adjustment is negative it can drop below 0.  The agent scorer outputs Risk
and Privacy-Compliance always lie in `[0, 100]`. -/
theorem C3_score_bounds (pers : Personality) (memoryDB : List MemoryEntry)
    (realDecisions : List DecisionRecord) (ev : TransactionEvent)
    (now nowHour : ℤ) (ha : 0 ≤ ev.amount) (hc : 0 ≤ ev.contractInteractions) :
    (makeAutonomousDecision pers memoryDB realDecisions ev now).result.threatScore ≤ 100
    ∧ (0 ≤ applyPersonality pers ev memoryDB now →
        0 ≤ (makeAutonomousDecision pers memoryDB realDecisions ev now).result.threatScore)
    ∧ 0 ≤ calculateRiskScore ev nowHour ∧ calculateRiskScore ev nowHour ≤ 100
    ∧ 0 ≤ checkPrivacyCompliance ev ∧ checkPrivacyCompliance ev ≤ 100 := by
  have hle := finalThreatScore_le_one pers ev memoryDB now
  refine ⟨?_, ?_, (calculateRiskScore_bounds ev nowHour).1,
    (calculateRiskScore_bounds ev nowHour).2,
    (checkPrivacyCompliance_bounds ev).1, (checkPrivacyCompliance_bounds ev).2⟩
  · rw [makeAutonomousDecision_threatScore]
    calc jsRound (finalThreatScore pers ev memoryDB now * 100)
        ≤ jsRound 100 := jsRound_le_of_le (by nlinarith)
      _ = 100 := jsRound_hundred
  · intro hadj
    rw [makeAutonomousDecision_threatScore]
    apply jsRound_zero_le
    have hb := threatProbability_nonneg ev now ha hc
    have hfin : 0 ≤ finalThreatScore pers ev memoryDB now := by
      unfold finalThreatScore
      exact le_min (by norm_num) (by linarith)
    nlinarith

/-- Witness for C3: the amended statement instantiated at `ev0` (non-negative
amount and interaction count) with empty memory, where the adjustment is 0. -/
theorem C3_score_bounds_witness :
    0 ≤ ev0.amount ∧ 0 ≤ ev0.contractInteractions
    ∧ (makeAutonomousDecision defaultPersonality [] [] ev0 86400000).result.threatScore ≤ 100 :=
  ⟨by norm_num [ev0], by norm_num [ev0],
   (C3_score_bounds defaultPersonality [] [] ev0 86400000 0
      (by norm_num [ev0]) (by norm_num [ev0])).1⟩

/-- Claim C4, counterexample: after 1001 guardian decisions starting from an
empty Pattern Memory, the memory holds 1001 entries — the documented capacity
of 1000 is exceeded and nothing was evicted. -/
theorem C4_counterexample :
    (guardianMemAfter defaultPersonality 86400000 (List.replicate 1001 ev0) []).length = 1001
    ∧ ¬((guardianMemAfter defaultPersonality 86400000 (List.replicate 1001 ev0) []).length ≤ 1000) := by
  constructor
  · rw [guardianMemAfter_length, List.length_replicate, List.length_nil]
  · rw [guardianMemAfter_length, List.length_replicate, List.length_nil]
    omega

/-- Claim C4, amended: the Guardian's Pattern Memory is unbounded — every
decision appends one entry and nothing is ever evicted, so after inserting
`n` entries all `n` remain, in insertion order; only the separate ElizaOS
memory bank enforces a 1000-entry bound, via oldest-key eviction in
`addLearning`. -/
theorem C4_memory_behavior :
    (∀ (pers : Personality) (now : ℤ) (evs : List TransactionEvent)
        (mem : List MemoryEntry),
      (guardianMemAfter pers now evs mem).length = mem.length + evs.length
      ∧ (guardianMemAfter pers now evs mem).map (fun m => m.event)
          = mem.map (fun m => m.event) ++ evs)
    ∧ (∀ (m : List (String × ℚ)) (k : String) (v : ℚ),
        m.length ≤ 1000 → (addLearning m k v).length ≤ 1000) :=
  ⟨fun pers now evs mem =>
    ⟨guardianMemAfter_length pers now evs mem,
     guardianMemAfter_events pers now evs mem⟩,
   addLearning_length_le⟩

/-- Witness for C4: a concrete guardian insertion and a concrete
`addLearning` call on a memory bank within capacity. -/
theorem C4_memory_behavior_witness :
    (guardianMemAfter defaultPersonality 0 [ev0] []).length = 0 + 1
    ∧ ([] : List (String × ℚ)).length ≤ 1000
    ∧ (addLearning [] "k" 1).length ≤ 1000 :=
  ⟨(C4_memory_behavior.1 defaultPersonality 0 [ev0] []).1, by simp,
   C4_memory_behavior.2 [] "k" 1 (by simp)⟩

/-- Claim C5, counterexample: two Analyze calls with bit-identical event
`ev5`, identical (empty) Pattern Memory, and identical `Date.now()`, made at
wall-clock hours 3 and 12, return different scorer breakdowns: the agents
risk score is 10 at hour 3 (night-hours bonus) and 0 at hour 12, because
`calculateRiskScore` reads the current clock, not the event. -/
theorem C5_counterexample :
    (analyzeThreat defaultPersonality [] [] ev5 43200000 3).agent.riskRaw = 10
    ∧ (analyzeThreat defaultPersonality [] [] ev5 43200000 12).agent.riskRaw = 0
    ∧ (analyzeThreat defaultPersonality [] [] ev5 43200000 3).agent
        ≠ (analyzeThreat defaultPersonality [] [] ev5 43200000 12).agent := by
  have h3 : (analyzeThreat defaultPersonality [] [] ev5 43200000 3).agent.riskRaw = 10 := by
    norm_num [analyzeThreat, analyzeWithRealAgents, calculateRiskScore, ev5]
  have h12 : (analyzeThreat defaultPersonality [] [] ev5 43200000 12).agent.riskRaw = 0 := by
    norm_num [analyzeThreat, analyzeWithRealAgents, calculateRiskScore, ev5]
  refine ⟨h3, h12, fun h => ?_⟩
  rw [h, h12] at h3
  norm_num at h3

/-- Claim C5, amended: the Analyze decision is a deterministic function of the
event, the Pattern Memory state, and the wall-clock reading at call time; all
components of the output except the agents risk score — the guardian result,
the ZK risk score, and the privacy and treasury scores — are independent of
the current wall-clock hour. -/
theorem C5_determinism_given_clock (pers : Personality)
    (memoryDB : List MemoryEntry) (realDecisions : List DecisionRecord)
    (ev : TransactionEvent) (now hr1 hr2 : ℤ) :
    (analyzeThreat pers memoryDB realDecisions ev now hr1).guardian
        = (analyzeThreat pers memoryDB realDecisions ev now hr2).guardian
    ∧ (analyzeThreat pers memoryDB realDecisions ev now hr1).zk
        = (analyzeThreat pers memoryDB realDecisions ev now hr2).zk
    ∧ (analyzeThreat pers memoryDB realDecisions ev now hr1).agent.privacyScore
        = (analyzeThreat pers memoryDB realDecisions ev now hr2).agent.privacyScore
    ∧ (analyzeThreat pers memoryDB realDecisions ev now hr1).agent.treasuryImpact
        = (analyzeThreat pers memoryDB realDecisions ev now hr2).agent.treasuryImpact :=
  ⟨rfl, rfl, rfl, rfl⟩

/-- Claim C6, counterexample: with exactly 10 stored entries — satisfying the
claim's "at least 10" — one of which has cosine similarity above 0.8 to the
incoming benign event, the dampening is NOT applied (the code requires
strictly more than 10 entries): the adjusted probability equals the undamped
base probability instead of being strictly smaller. -/
theorem C6_counterexample :
    10 ≤ mem10.length
    ∧ (mem10.any fun m => simAbove08 m.event ev0) = true
    ∧ ¬(finalThreatScore defaultPersonality ev0 mem10 86400000
          < threatProbability ev0 86400000) := by
  refine ⟨by simp [mem10], ?_, ?_⟩
  · norm_num [mem10, entry0, ev0, simAbove08, simNormSq, simDot, List.any,
      List.replicate]
  · have hfin : finalThreatScore defaultPersonality ev0 mem10 86400000 = 0.03 := by
      norm_num [finalThreatScore, threatProbability, applyPersonality,
        normalizeAmount, normalizeTime, jsOrI, hourOf, ev0, mem10, entry0,
        defaultPersonality, simAbove08, simNormSq, simDot, List.any,
        List.replicate]
    have hbase : threatProbability ev0 86400000 = 0.03 := by
      norm_num [threatProbability, normalizeAmount, normalizeTime, jsOrI,
        hourOf, ev0]
    rw [hfin, hbase]
    norm_num

/-- Claim C6, amended: the `-0.05` dampening requires STRICTLY more than 10
memory entries; when the memory holds more than 10 entries, at least one of
them has cosine similarity above 0.8 to the new event, and the event earns
no positive personality bonus (amount at most 500000 and hour outside
[2, 6]), the Guardian-adjusted probability is strictly less than the
undamped base probability. -/
theorem C6_dampening (pers : Personality) (memoryDB : List MemoryEntry)
    (ev : TransactionEvent) (now : ℤ)
    (hlen : 10 < memoryDB.length)
    (hsim : (memoryDB.any fun m => simAbove08 m.event ev) = true)
    (hamount : ev.amount ≤ 500000)
    (hhour : ¬(2 ≤ hourOf (jsOrI ev.timestamp now)
        ∧ hourOf (jsOrI ev.timestamp now) ≤ 6)) :
    finalThreatScore pers ev memoryDB now < threatProbability ev now := by
  have hadj : applyPersonality pers ev memoryDB now = -0.05 := by
    unfold applyPersonality
    rw [if_neg (not_lt.mpr hamount), if_neg hhour, if_pos ⟨hsim, hlen⟩]
    norm_num
  unfold finalThreatScore
  rw [hadj]
  calc min 1 (threatProbability ev now + -0.05)
      ≤ threatProbability ev now + -0.05 := min_le_right _ _
    _ < threatProbability ev now := by linarith

/-- Witness for C6: eleven similar entries, benign amount, hour 0. -/
theorem C6_dampening_witness :
    10 < mem11.length
    ∧ (mem11.any fun m => simAbove08 m.event ev0) = true
    ∧ ev0.amount ≤ 500000
    ∧ ¬(2 ≤ hourOf (jsOrI ev0.timestamp 86400000)
        ∧ hourOf (jsOrI ev0.timestamp 86400000) ≤ 6)
    ∧ finalThreatScore defaultPersonality ev0 mem11 86400000
        < threatProbability ev0 86400000 :=
  ⟨by simp [mem11], by norm_num [mem11, entry0, ev0, simAbove08, simNormSq,
      simDot, List.any, List.replicate],
   by norm_num [ev0], by decide,
   C6_dampening defaultPersonality mem11 ev0 86400000 (by simp [mem11])
     (by norm_num [mem11, entry0, ev0, simAbove08, simNormSq, simDot,
        List.any, List.replicate])
     (by norm_num [ev0]) (by decide)⟩

/-- Claim C7, counterexample: with the advanced-AI result missing, the
aggregator substitutes 0 — not the neutral default 50 the claim requires —
for that scorer. -/
theorem C7_counterexample :
    (makeUltimateDecision none (some 100) (some 100) (some 100)).scoreAI = 0
    ∧ (makeUltimateDecision none (some 100) (some 100) (some 100)).scoreAI ≠ 50 := by
  constructor <;> norm_num [makeUltimateDecision]

/-- Claim C7, amended: when any one of the four results is missing, the
Analyze call still succeeds and the aggregator substitutes 0 (via `|| 0`) for
that scorer — never null and never an exception — and the returned action is
always one of block, alert, monitor. -/
theorem C7_missing_scorer_default_zero (a z m g : Option ℚ) :
    (makeUltimateDecision none z m g).scoreAI = 0
    ∧ (makeUltimateDecision a none m g).scoreZK = 0
    ∧ (makeUltimateDecision a z none g).scoreAgents = 0
    ∧ (makeUltimateDecision a z m none).scoreGuardian = 0
    ∧ (makeUltimateDecision none z m g).ultimateScoreQ
        = (0 + z.getD 0 + m.getD 0 + g.getD 0) / 4
    ∧ ((makeUltimateDecision a z m g).action = Action.block
       ∨ (makeUltimateDecision a z m g).action = Action.alert
       ∨ (makeUltimateDecision a z m g).action = Action.monitor) := by
  refine ⟨rfl, rfl, rfl, rfl, rfl, ?_⟩
  unfold makeUltimateDecision
  dsimp only
  split_ifs <;> simp

/-- Claim C8, confirmed: `learnFromOutcome` on a decision id not present in
the decision store returns `false` and leaves the accuracy counters exactly
unchanged, without raising. -/
theorem C8_unknown_id_noop (realDecisions : List DecisionRecord)
    (acc : Accuracy) (decisionId : ℤ) (actual : Outcome)
    (h : ∀ d ∈ realDecisions, d.id ≠ decisionId) :
    learnFromOutcome realDecisions acc decisionId actual = (false, acc) := by
  have hf : realDecisions.find? (fun d => d.id == decisionId) = none :=
    List.find?_eq_none.mpr (fun d hd => by simpa using h d hd)
  unfold learnFromOutcome
  rw [hf]

/-- Witness for C8: the spec's scenario `RecordOutcome(999999, "threat")`
against a store that does not contain id 999999. -/
theorem C8_unknown_id_noop_witness :
    (∀ d ∈ ([] : List DecisionRecord), d.id ≠ 999999)
    ∧ learnFromOutcome [] { correct := 0, total := 0 } 999999 Outcome.threat
        = (false, { correct := 0, total := 0 }) :=
  ⟨by simp, C8_unknown_id_noop [] { correct := 0, total := 0 } 999999
    Outcome.threat (by simp)⟩

/-- Claim C9, counterexample: two guardian decisions made in the same
wall-clock millisecond (5) both receive id `Date.now() = 5` — two decisions
exist, yet their ids are not distinct, so uniqueness and strict increase
fail. -/
theorem C9_counterexample :
    guardianRun1.record.id = 5 ∧ guardianRun2.record.id = 5
    ∧ guardianRun2.realDecisions.length = 2
    ∧ ¬(guardianRun1.record.id ≠ guardianRun2.record.id) := by
  refine ⟨rfl, rfl, ?_, fun h => h rfl⟩
  rw [guardianRun2, makeAutonomousDecision_realDecisions_eq, guardianRun1,
    makeAutonomousDecision_realDecisions_eq]
  simp

/-- Claim C9, amended: a DecisionRecord's id is the wall-clock millisecond of
its creation, so ids are non-decreasing in creation time — but two decisions
created in the same millisecond share an id, so ids are neither unique nor
strictly increasing. -/
theorem C9_ids_monotone (pers1 pers2 : Personality)
    (mem1 mem2 : List MemoryEntry) (rd1 rd2 : List DecisionRecord)
    (ev1 ev2 : TransactionEvent) (t1 t2 : ℤ) (h : t1 ≤ t2) :
    (makeAutonomousDecision pers1 mem1 rd1 ev1 t1).record.id
      ≤ (makeAutonomousDecision pers2 mem2 rd2 ev2 t2).record.id := h

/-- Witness for C9: two creations one millisecond apart. -/
theorem C9_ids_monotone_witness :
    (1 : ℤ) ≤ 2
    ∧ (makeAutonomousDecision defaultPersonality [] [] ev0 1).record.id
        ≤ (makeAutonomousDecision defaultPersonality [] [] ev0 2).record.id :=
  ⟨by decide,
   C9_ids_monotone defaultPersonality defaultPersonality [] [] [] [] ev0 ev0
     1 2 (by decide)⟩

/-- Claim C10, confirmed: starting from counters with `correct ≤ total`, a
`learnFromOutcome` call preserves `correct ≤ total`; a successful call (known
id) increments `total` by exactly 1 and `correct` by at most 1 (never
decrementing), and an unsuccessful call leaves the counters unchanged — so
the reported accuracy percentage never exceeds 100%. -/
theorem C10_accuracy_monotone (realDecisions : List DecisionRecord)
    (acc : Accuracy) (decisionId : ℤ) (actual : Outcome)
    (h : acc.correct ≤ acc.total) :
    ((learnFromOutcome realDecisions acc decisionId actual).2.correct
        ≤ (learnFromOutcome realDecisions acc decisionId actual).2.total)
    ∧ ((learnFromOutcome realDecisions acc decisionId actual).1 = true →
        (learnFromOutcome realDecisions acc decisionId actual).2.total
            = acc.total + 1
        ∧ acc.correct ≤ (learnFromOutcome realDecisions acc decisionId actual).2.correct
        ∧ (learnFromOutcome realDecisions acc decisionId actual).2.correct
            ≤ acc.correct + 1)
    ∧ ((learnFromOutcome realDecisions acc decisionId actual).1 = false →
        (learnFromOutcome realDecisions acc decisionId actual).2 = acc) := by
  unfold learnFromOutcome
  cases realDecisions.find? (fun d => d.id == decisionId) with
  | none => exact ⟨h, by simp, fun _ => rfl⟩
  | some d =>
      cases hed : evaluateDecision d.action actual <;>
        simp [hed] <;> omega

/-- Witness for C10: counters `{correct := 0, total := 0}` satisfy the
hypothesis, and the invariant holds after a call. -/
theorem C10_accuracy_monotone_witness :
    (0 : ℕ) ≤ 0
    ∧ ((learnFromOutcome [] { correct := 0, total := 0 } 1 Outcome.safe).2.correct
        ≤ (learnFromOutcome [] { correct := 0, total := 0 } 1 Outcome.safe).2.total) :=
  ⟨by decide,
   (C10_accuracy_monotone [] { correct := 0, total := 0 } 1 Outcome.safe
      (by decide)).1⟩

end ZeroTrust
